import Mathlib

set_option maxRecDepth 4000

/-!
Shallow embedding of the `sentinel` repository (three Python scripts:
`create_model.py`, `create_small_model.py`, `create_tiny_model.py`).

Text is modelled as `List Char`; Python `ord` is `Char.toNat` (the Unicode
code point).  The per-character encoding loops become `List.map` over the
truncated text, and the `while len < max_length: append(0)` padding loop is
the recursive `padZeros`.  The numpy random source is modelled as an explicit
stream `g : Nat → Nat`: the k-th random call of a loop iteration reads a
distinct position of `g`, and `np.random.choice` / `np.random.randint` turn
the raw draw into a pool element or a bounded integer.  The loops that append
to Python lists (`training_examples.append(...)`, `X.append(...)`,
`y.append(...)`) become `List.foldl` with list-append accumulators.

The network definition is embedded with inference semantics over `ℝ`:
`Dense(n, relu)` is an affine map followed by pointwise `relu`, Keras
`Dense(n, activation='softmax')` applies softmax over its whole output axis,
`Dropout` is the identity at inference time (the tiny variant, which the
claims cite, has no dropout at all), and `Reshape((50, V))` splits the flat
output into 50 rows of length `V`.
-/

namespace Sentinel

/-- Mirrors the padding loop `while len(char_indices) < max_length:
char_indices.append(0)` of every `preprocess_*` function. -/
def padZeros (l : List Nat) (max_length : Nat) : List Nat :=
  if l.length < max_length then padZeros (l ++ [0]) max_length else l
termination_by max_length - l.length
decreasing_by simp [List.length_append]; omega

/-- Generic form shared by all six `preprocess_*` functions: truncate to `L`,
clamp each code at `m`, pad with zeros to `L`. -/
def clampEncode (m : Nat) (text : List Char) (L : Nat) : List Nat :=
  padZeros ((text.take L).map (fun char => min char.toNat m)) L

/-- Models `np.random.choice(pool)`: the raw draw `r` from the random source
is reduced mod the pool size. -/
def np_choice (pool : List (List Char)) (r : Nat) : List Char :=
  pool.getD (r % pool.length) []

/-- Models `np.random.randint(lo, hi)`: an integer in `[lo, hi)`. -/
def np_randint (lo hi r : Nat) : Nat := lo + r % (hi - lo)

/-- Models the Python format spec `{:02d}`: decimal digits, zero-padded to
width two. -/
def format02d (n : Nat) : List Char :=
  if n < 10 then '0' :: (Nat.repr n).toList else (Nat.repr n).toList

/-- Dot product of a weight row with the layer input. -/
noncomputable def dotProduct (w x : List ℝ) : ℝ := (List.zipWith (fun a b => a * b) w x).sum

/-- A Keras `Dense` layer before its activation: affine map `W·x + b`,
one output per weight row. -/
noncomputable def dense_layer (W : List (List ℝ)) (b : List ℝ) (x : List ℝ) : List ℝ :=
  List.zipWith (fun wrow bi => dotProduct wrow x + bi) W b

/-- The `relu` activation. -/
noncomputable def relu (x : ℝ) : ℝ := max x 0

/-- Keras `activation='softmax'` on a `Dense` output: normalizes over the
whole output axis of that layer. -/
noncomputable def softmax (l : List ℝ) : List ℝ :=
  l.map (fun z => Real.exp z / (l.map Real.exp).sum)

/-- Keras `Reshape((rows, cols))` of a flat vector: split into `rows`
consecutive rows of length `cols`. -/
noncomputable def reshapeRows (cols : Nat) : Nat → List ℝ → List (List ℝ)
  | 0, _ => []
  | rows + 1, l => l.take cols :: reshapeRows cols rows (l.drop cols)

end Sentinel

namespace CreateModel

def MAX_INPUT_LENGTH : Nat := 200
def MAX_OUTPUT_LENGTH : Nat := 50
def VOCAB_SIZE : Nat := 30000

/-- `preprocess_text` of `create_model.py`: truncate to `max_length`, map each
character to `min(ord(char), 29999)`, pad with zeros to `max_length`. -/
def preprocess_text (text : List Char) (max_length : Nat := 200) : List Nat :=
  let char_indices := (text.take max_length).map (fun char => min char.toNat 29999)
  Sentinel.padZeros char_indices max_length

/-- `preprocess_contact_name` of `create_model.py`. -/
def preprocess_contact_name (name : List Char) (max_length : Nat := 50) : List Nat :=
  let char_indices := (name.take max_length).map (fun char => min char.toNat 29999)
  Sentinel.padZeros char_indices max_length

/-- The hand-authored examples of `generate_training_data` in `create_model.py`. -/
def training_examples : List (List Char × List Char) := [
  ("John Smith\nOnline\nLast seen today at 2:30 PM".toList, "John Smith".toList),
  ("Maria Garcia\nTyping...\nLast seen yesterday".toList, "Maria Garcia".toList),
  ("Dr. Johnson\nOnline\nLast seen 5 minutes ago".toList, "Dr. Johnson".toList),
  ("Sarah Wilson\nLast seen today at 10:15 AM".toList, "Sarah Wilson".toList),
  ("Mike Chen\nOnline\nLast seen 1 hour ago".toList, "Mike Chen".toList),
  ("Anna Rodriguez\nLast seen yesterday at 8:45 PM".toList, "Anna Rodriguez".toList),
  ("Prof. Brown\nOnline\nLast seen 30 minutes ago".toList, "Prof. Brown".toList),
  ("Lisa Johnson\nTyping...\nLast seen today".toList, "Lisa Johnson".toList),
  ("David Kim\nLast seen 2 hours ago".toList, "David Kim".toList),
  ("Emma Davis\nOnline\nLast seen 15 minutes ago".toList, "Emma Davis".toList)]

def names : List (List Char) :=
  ["Alex".toList, "Chris".toList, "Taylor".toList, "Jordan".toList, "Casey".toList,
   "Morgan".toList, "Riley".toList, "Avery".toList, "Quinn".toList, "Blake".toList]

def surnames : List (List Char) :=
  ["Anderson".toList, "Taylor".toList, "Thomas".toList, "Jackson".toList, "White".toList,
   "Harris".toList, "Martin".toList, "Thompson".toList, "Garcia".toList, "Martinez".toList]

def status_options : List (List Char) :=
  ["Online".toList, "Last seen today".toList, "Last seen yesterday".toList, "Typing...".toList]

/-- one iteration of the `for i in range(50)` loop of `generate_training_data`
in `create_model.py`: five random calls (name, surname, status, hour, minute),
`full_name = f"{first_name} {last_name}"`, and
`text = f"{full_name}\n{status}\nLast seen today at {h}:{m:02d} PM"`. -/
def synth_example (g : Nat → Nat) (i : Nat) : List Char × List Char :=
  let first_name := Sentinel.np_choice names (g (5 * i))
  let last_name := Sentinel.np_choice surnames (g (5 * i + 1))
  let full_name := first_name ++ ' ' :: last_name
  let status := Sentinel.np_choice status_options (g (5 * i + 2))
  let text := full_name ++ '\n' :: status ++ '\n' :: "Last seen today at ".toList ++
      (Nat.repr (Sentinel.np_randint 1 12 (g (5 * i + 3)))).toList ++
      ':' :: Sentinel.format02d (Sentinel.np_randint 10 60 (g (5 * i + 4))) ++ " PM".toList
  (text, full_name)

/-- `generate_training_data` of `create_model.py`: the fixed examples, then 50
appended synthetic ones. -/
def generate_training_data (g : Nat → Nat) : List (List Char × List Char) :=
  (List.range 50).foldl (fun acc i => acc ++ [synth_example g i]) training_examples

/-- `create_training_data` of `create_model.py`: one loop over the examples
appending `preprocess_text(text)` to `X` and `preprocess_contact_name(name)`
to `y` (defaults 200 and 50). -/
def create_training_data (g : Nat → Nat) : List (List Nat) × List (List Nat) :=
  (generate_training_data g).foldl
    (fun acc p => (acc.1 ++ [preprocess_text p.1], acc.2 ++ [preprocess_contact_name p.2]))
    ([], [])

end CreateModel

namespace CreateSmallModel

def MAX_INPUT_LENGTH : Nat := 200
def MAX_OUTPUT_LENGTH : Nat := 50
def VOCAB_SIZE : Nat := 256

/-- `preprocess_text_simple` of `create_small_model.py`: cap at 255. -/
def preprocess_text_simple (text : List Char) (max_length : Nat := 200) : List Nat :=
  let char_indices := (text.take max_length).map (fun char => min char.toNat 255)
  Sentinel.padZeros char_indices max_length

/-- `preprocess_contact_name_simple` of `create_small_model.py`. -/
def preprocess_contact_name_simple (name : List Char) (max_length : Nat := 50) : List Nat :=
  let char_indices := (name.take max_length).map (fun char => min char.toNat 255)
  Sentinel.padZeros char_indices max_length

/-- The hand-authored examples of `generate_simple_training_data`. -/
def training_examples : List (List Char × List Char) := [
  ("John Smith\nOnline\nLast seen today".toList, "John Smith".toList),
  ("Maria Garcia\nTyping...\nLast seen yesterday".toList, "Maria Garcia".toList),
  ("Dr. Johnson\nOnline\nLast seen 5 minutes ago".toList, "Dr. Johnson".toList),
  ("Sarah Wilson\nLast seen today".toList, "Sarah Wilson".toList),
  ("Mike Chen\nOnline\nLast seen 1 hour ago".toList, "Mike Chen".toList),
  ("Anna Rodriguez\nLast seen yesterday".toList, "Anna Rodriguez".toList),
  ("Prof. Brown\nOnline\nLast seen 30 minutes ago".toList, "Prof. Brown".toList),
  ("Lisa Johnson\nTyping...\nLast seen today".toList, "Lisa Johnson".toList),
  ("David Kim\nLast seen 2 hours ago".toList, "David Kim".toList),
  ("Emma Davis\nOnline\nLast seen 15 minutes ago".toList, "Emma Davis".toList)]

def names : List (List Char) :=
  ["Alex".toList, "Chris".toList, "Taylor".toList, "Jordan".toList, "Casey".toList,
   "Morgan".toList, "Riley".toList, "Avery".toList, "Quinn".toList, "Blake".toList]

def surnames : List (List Char) :=
  ["Anderson".toList, "Taylor".toList, "Thomas".toList, "Jackson".toList, "White".toList,
   "Harris".toList, "Martin".toList, "Thompson".toList, "Garcia".toList, "Martinez".toList]

def status_options : List (List Char) :=
  ["Online".toList, "Last seen today".toList, "Last seen yesterday".toList, "Typing...".toList]

/-- one iteration of the `for i in range(20)` loop of
`generate_simple_training_data`: three random calls and
`text = f"{full_name}\n{status}\nLast seen today"`. -/
def synth_example (g : Nat → Nat) (i : Nat) : List Char × List Char :=
  let first_name := Sentinel.np_choice names (g (3 * i))
  let last_name := Sentinel.np_choice surnames (g (3 * i + 1))
  let full_name := first_name ++ ' ' :: last_name
  let status := Sentinel.np_choice status_options (g (3 * i + 2))
  let text := full_name ++ '\n' :: status ++ '\n' :: "Last seen today".toList
  (text, full_name)

/-- `generate_simple_training_data` of `create_small_model.py`. -/
def generate_simple_training_data (g : Nat → Nat) : List (List Char × List Char) :=
  (List.range 20).foldl (fun acc i => acc ++ [synth_example g i]) training_examples

/-- `create_training_data` of `create_small_model.py`. -/
def create_training_data (g : Nat → Nat) : List (List Nat) × List (List Nat) :=
  (generate_simple_training_data g).foldl
    (fun acc p => (acc.1 ++ [preprocess_text_simple p.1],
                   acc.2 ++ [preprocess_contact_name_simple p.2]))
    ([], [])

end CreateSmallModel

namespace CreateTinyModel

def MAX_INPUT_LENGTH : Nat := 200
def MAX_OUTPUT_LENGTH : Nat := 50
def VOCAB_SIZE : Nat := 128

/-- `preprocess_text_tiny` of `create_tiny_model.py`: cap at 127. -/
def preprocess_text_tiny (text : List Char) (max_length : Nat := 200) : List Nat :=
  let char_indices := (text.take max_length).map (fun char => min char.toNat 127)
  Sentinel.padZeros char_indices max_length

/-- `preprocess_contact_name_tiny` of `create_tiny_model.py`. -/
def preprocess_contact_name_tiny (name : List Char) (max_length : Nat := 50) : List Nat :=
  let char_indices := (name.take max_length).map (fun char => min char.toNat 127)
  Sentinel.padZeros char_indices max_length

/-- The hand-authored examples of `generate_tiny_training_data`. -/
def training_examples : List (List Char × List Char) := [
  ("John Smith\nOnline".toList, "John Smith".toList),
  ("Maria Garcia\nTyping".toList, "Maria Garcia".toList),
  ("Dr. Johnson\nOnline".toList, "Dr. Johnson".toList),
  ("Sarah Wilson\nLast seen".toList, "Sarah Wilson".toList),
  ("Mike Chen\nOnline".toList, "Mike Chen".toList)]

def names : List (List Char) :=
  ["Alex".toList, "Chris".toList, "Taylor".toList, "Jordan".toList, "Casey".toList]

def surnames : List (List Char) :=
  ["Anderson".toList, "Taylor".toList, "Thomas".toList, "Jackson".toList, "White".toList]

/-- one iteration of the `for i in range(10)` loop of
`generate_tiny_training_data`: two random calls and
`text = f"{full_name}\nOnline"`. -/
def synth_example (g : Nat → Nat) (i : Nat) : List Char × List Char :=
  let first_name := Sentinel.np_choice names (g (2 * i))
  let last_name := Sentinel.np_choice surnames (g (2 * i + 1))
  let full_name := first_name ++ ' ' :: last_name
  let text := full_name ++ '\n' :: "Online".toList
  (text, full_name)

/-- `generate_tiny_training_data` of `create_tiny_model.py`. -/
def generate_tiny_training_data (g : Nat → Nat) : List (List Char × List Char) :=
  (List.range 10).foldl (fun acc i => acc ++ [synth_example g i]) training_examples

/-- `create_training_data` of `create_tiny_model.py`. -/
def create_training_data (g : Nat → Nat) : List (List Nat) × List (List Nat) :=
  (generate_tiny_training_data g).foldl
    (fun acc p => (acc.1 ++ [preprocess_text_tiny p.1],
                   acc.2 ++ [preprocess_contact_name_tiny p.2]))
    ([], [])

/-- `create_tiny_contact_detection_model` of `create_tiny_model.py`, inference
semantics, weights as parameters: `Dense(32, relu)`, `Dense(16, relu)`,
`Dense(50 * 128, activation='softmax')` (softmax over the whole flat output,
as Keras applies it to the `Dense` output axis), then `Reshape((50, 128))`. -/
noncomputable def create_tiny_contact_detection_model
    (W1 : List (List ℝ)) (b1 : List ℝ) (W2 : List (List ℝ)) (b2 : List ℝ)
    (W3 : List (List ℝ)) (b3 : List ℝ) (input_text : List ℝ) : List (List ℝ) :=
  let dense1 := (Sentinel.dense_layer W1 b1 input_text).map Sentinel.relu
  let dense2 := (Sentinel.dense_layer W2 b2 dense1).map Sentinel.relu
  let output := Sentinel.softmax (Sentinel.dense_layer W3 b3 dense2)
  Sentinel.reshapeRows VOCAB_SIZE MAX_OUTPUT_LENGTH output

/-- An all-zero weight matrix, a concrete admissible parameter value. -/
noncomputable def zeroMatrix (m n : Nat) : List (List ℝ) := List.replicate m (List.replicate n 0)

/-- An all-zero bias vector. -/
noncomputable def zeroVec (m : Nat) : List ℝ := List.replicate m 0

end CreateTinyModel

namespace Sentinel

/-- The padding loop appends exactly `max_length - l.length` zeros. -/
theorem padZeros_eq_aux : ∀ (n : Nat) (l : List Nat) (L : Nat), L - l.length = n →
    padZeros l L = l ++ List.replicate n 0 := by
  intro n
  induction n with
  | zero =>
    intro l L h
    rw [padZeros]
    simp only [List.replicate_zero, List.append_nil]
    have : ¬ l.length < L := by omega
    simp [this]
  | succ m ih =>
    intro l L h
    rw [padZeros]
    have hlt : l.length < L := by omega
    simp only [hlt, if_true]
    have h2 : L - (l ++ [0]).length = m := by simp [List.length_append]; omega
    rw [ih (l ++ [0]) L h2]
    simp [List.replicate_succ]

theorem padZeros_eq (l : List Nat) (L : Nat) :
    padZeros l L = l ++ List.replicate (L - l.length) 0 :=
  padZeros_eq_aux (L - l.length) l L rfl

theorem padZeros_length (l : List Nat) (L : Nat) (h : l.length ≤ L) :
    (padZeros l L).length = L := by
  rw [padZeros_eq]; simp; omega

theorem clampEncode_length (m : Nat) (text : List Char) (L : Nat) :
    (clampEncode m text L).length = L := by
  apply padZeros_length
  simp [List.length_take]

/-- Within the truncated text, position `i` of the encoding holds the clamped
code of character `i`. -/
theorem clampEncode_getElem?_lt (m : Nat) (text : List Char) (L i : Nat) (c : Char)
    (hi : i < L) (hc : text[i]? = some c) :
    (clampEncode m text L)[i]? = some (min c.toNat m) := by
  have hlen : i < text.length := by
    by_contra h
    rw [List.getElem?_eq_none (by omega)] at hc
    exact Option.noConfusion hc
  unfold clampEncode
  rw [padZeros_eq, List.getElem?_append]
  have h1 : i < ((text.take L).map (fun char => min char.toNat m)).length := by
    simp [List.length_take]; omega
  rw [if_pos h1, List.getElem?_map, List.getElem?_take, if_pos hi, hc]
  rfl

/-- Beyond the source text, the encoding holds the padding token `0`. -/
theorem clampEncode_getElem?_pad (m : Nat) (text : List Char) (L i : Nat)
    (h1 : text.length ≤ i) (h2 : i < L) :
    (clampEncode m text L)[i]? = some 0 := by
  unfold clampEncode
  rw [padZeros_eq]
  simp only [List.getElem?_append, List.length_map, List.length_take,
    List.getElem?_replicate]
  rw [if_neg (by omega), if_pos (by omega)]

/-- Every element the encoder emits is at most the clamp bound. -/
theorem clampEncode_all_le (m : Nat) (text : List Char) (L : Nat) :
    ∀ x ∈ clampEncode m text L, x ≤ m := by
  intro x hx
  unfold clampEncode at hx
  rw [padZeros_eq] at hx
  rcases List.mem_append.mp hx with h | h
  · rcases List.mem_map.mp h with ⟨c, _, rfl⟩
    exact min_le_right _ _
  · rw [List.eq_of_mem_replicate h]
    exact Nat.zero_le m

/-- The encoding only looks at the first `L` characters. -/
theorem clampEncode_take (m : Nat) (text : List Char) (L : Nat) :
    clampEncode m (text.take L) L = clampEncode m text L := by
  unfold clampEncode
  rw [List.take_take, min_self]

/-- The empty string encodes to all padding. -/
theorem clampEncode_nil (m : Nat) (L : Nat) :
    clampEncode m [] L = List.replicate L 0 := by
  unfold clampEncode
  rw [padZeros_eq]
  simp

end Sentinel

namespace Sentinel

/-- Claim C1: for every input string `s` and every configured `max_length`,
each of the six encoders (`preprocess_text` / `preprocess_contact_name` of the
full variant and their small/tiny counterparts) returns a sequence of length
exactly `max_length`, whether `s` is empty, shorter, or longer. -/
theorem C1_encoder_length_exact (s : List Char) (L : Nat) :
    (CreateModel.preprocess_text s L).length = L ∧
    (CreateModel.preprocess_contact_name s L).length = L ∧
    (CreateSmallModel.preprocess_text_simple s L).length = L ∧
    (CreateSmallModel.preprocess_contact_name_simple s L).length = L ∧
    (CreateTinyModel.preprocess_text_tiny s L).length = L ∧
    (CreateTinyModel.preprocess_contact_name_tiny s L).length = L :=
  ⟨clampEncode_length 29999 s L, clampEncode_length 29999 s L,
   clampEncode_length 255 s L, clampEncode_length 255 s L,
   clampEncode_length 127 s L, clampEncode_length 127 s L⟩

/-- Claim C2: for every character among the first `max_length` characters of
the input, the encoded value at its position is `min(ord c, max_code)`, lies
in `[0, max_code]`, and equals exactly `max_code` when `ord c` exceeds it;
and the caps 29999 / 255 / 127 are `VOCAB_SIZE - 1` of each variant. -/
theorem C2_encoded_value_clamped (s : List Char) (L i : Nat) (c : Char)
    (hi : i < L) (hc : s[i]? = some c) :
    ((CreateModel.preprocess_text s L)[i]? = some (min c.toNat 29999) ∧
      min c.toNat 29999 ≤ 29999 ∧
      (29999 < c.toNat → (CreateModel.preprocess_text s L)[i]? = some 29999)) ∧
    ((CreateSmallModel.preprocess_text_simple s L)[i]? = some (min c.toNat 255) ∧
      min c.toNat 255 ≤ 255 ∧
      (255 < c.toNat → (CreateSmallModel.preprocess_text_simple s L)[i]? = some 255)) ∧
    ((CreateTinyModel.preprocess_text_tiny s L)[i]? = some (min c.toNat 127) ∧
      min c.toNat 127 ≤ 127 ∧
      (127 < c.toNat → (CreateTinyModel.preprocess_text_tiny s L)[i]? = some 127)) ∧
    29999 = CreateModel.VOCAB_SIZE - 1 ∧
    255 = CreateSmallModel.VOCAB_SIZE - 1 ∧
    127 = CreateTinyModel.VOCAB_SIZE - 1 := by
  refine ⟨⟨clampEncode_getElem?_lt 29999 s L i c hi hc, min_le_right _ _, fun h => ?_⟩,
    ⟨clampEncode_getElem?_lt 255 s L i c hi hc, min_le_right _ _, fun h => ?_⟩,
    ⟨clampEncode_getElem?_lt 127 s L i c hi hc, min_le_right _ _, fun h => ?_⟩,
    rfl, rfl, rfl⟩
  · rw [show (CreateModel.preprocess_text s L) = clampEncode 29999 s L from rfl,
      clampEncode_getElem?_lt 29999 s L i c hi hc, min_eq_right (Nat.le_of_lt h)]
  · rw [show (CreateSmallModel.preprocess_text_simple s L) = clampEncode 255 s L from rfl,
      clampEncode_getElem?_lt 255 s L i c hi hc, min_eq_right (Nat.le_of_lt h)]
  · rw [show (CreateTinyModel.preprocess_text_tiny s L) = clampEncode 127 s L from rfl,
      clampEncode_getElem?_lt 127 s L i c hi hc, min_eq_right (Nat.le_of_lt h)]

/-- Witness for C2 at a concrete input: `'田'` has code point 30000, so it is
clamped to exactly 29999 / 255 / 127 by the three variants. -/
theorem C2_encoded_value_clamped_witness :
    (CreateModel.preprocess_text "A田".toList 5)[1]? = some 29999 ∧
    (CreateSmallModel.preprocess_text_simple "A田".toList 5)[1]? = some 255 ∧
    (CreateTinyModel.preprocess_text_tiny "A田".toList 5)[1]? = some 127 := by
  have h := C2_encoded_value_clamped "A田".toList 5 1 '田' (by decide) (by decide)
  exact ⟨h.1.2.2 (by decide), h.2.1.2.2 (by decide), h.2.2.1.2.2 (by decide)⟩

/-- Claim C3: for input shorter than `max_length`, every encoded position in
`[len s, max_length)` is zero, and the empty string encodes to the all-zero
sequence, in all six encoders. -/
theorem C3_padding_zeros (s : List Char) (L i : Nat)
    (_hs : s.length < L) (h1 : s.length ≤ i) (h2 : i < L) :
    ((CreateModel.preprocess_text s L)[i]? = some 0 ∧
     (CreateModel.preprocess_contact_name s L)[i]? = some 0 ∧
     (CreateSmallModel.preprocess_text_simple s L)[i]? = some 0 ∧
     (CreateSmallModel.preprocess_contact_name_simple s L)[i]? = some 0 ∧
     (CreateTinyModel.preprocess_text_tiny s L)[i]? = some 0 ∧
     (CreateTinyModel.preprocess_contact_name_tiny s L)[i]? = some 0) ∧
    (CreateModel.preprocess_text [] L = List.replicate L 0 ∧
     CreateModel.preprocess_contact_name [] L = List.replicate L 0 ∧
     CreateSmallModel.preprocess_text_simple [] L = List.replicate L 0 ∧
     CreateSmallModel.preprocess_contact_name_simple [] L = List.replicate L 0 ∧
     CreateTinyModel.preprocess_text_tiny [] L = List.replicate L 0 ∧
     CreateTinyModel.preprocess_contact_name_tiny [] L = List.replicate L 0) :=
  ⟨⟨clampEncode_getElem?_pad 29999 s L i h1 h2, clampEncode_getElem?_pad 29999 s L i h1 h2,
    clampEncode_getElem?_pad 255 s L i h1 h2, clampEncode_getElem?_pad 255 s L i h1 h2,
    clampEncode_getElem?_pad 127 s L i h1 h2, clampEncode_getElem?_pad 127 s L i h1 h2⟩,
   ⟨clampEncode_nil 29999 L, clampEncode_nil 29999 L,
    clampEncode_nil 255 L, clampEncode_nil 255 L,
    clampEncode_nil 127 L, clampEncode_nil 127 L⟩⟩

/-- Witness for C3 at `s = "AB"`, `L = 5`, `i = 3`. -/
theorem C3_padding_zeros_witness :
    ((CreateModel.preprocess_text "AB".toList 5)[3]? = some 0 ∧
     (CreateModel.preprocess_contact_name "AB".toList 5)[3]? = some 0 ∧
     (CreateSmallModel.preprocess_text_simple "AB".toList 5)[3]? = some 0 ∧
     (CreateSmallModel.preprocess_contact_name_simple "AB".toList 5)[3]? = some 0 ∧
     (CreateTinyModel.preprocess_text_tiny "AB".toList 5)[3]? = some 0 ∧
     (CreateTinyModel.preprocess_contact_name_tiny "AB".toList 5)[3]? = some 0) ∧
    (CreateModel.preprocess_text [] 5 = List.replicate 5 0 ∧
     CreateModel.preprocess_contact_name [] 5 = List.replicate 5 0 ∧
     CreateSmallModel.preprocess_text_simple [] 5 = List.replicate 5 0 ∧
     CreateSmallModel.preprocess_contact_name_simple [] 5 = List.replicate 5 0 ∧
     CreateTinyModel.preprocess_text_tiny [] 5 = List.replicate 5 0 ∧
     CreateTinyModel.preprocess_contact_name_tiny [] 5 = List.replicate 5 0) :=
  C3_padding_zeros "AB".toList 5 3 (by decide) (by decide) (by decide)

/-- Claim C4: for input at least `max_length` long, each encoder depends only
on the first `max_length` characters. -/
theorem C4_depends_on_truncated_input (s : List Char) (L : Nat) (_h : L ≤ s.length) :
    CreateModel.preprocess_text s L = CreateModel.preprocess_text (s.take L) L ∧
    CreateModel.preprocess_contact_name s L = CreateModel.preprocess_contact_name (s.take L) L ∧
    CreateSmallModel.preprocess_text_simple s L
      = CreateSmallModel.preprocess_text_simple (s.take L) L ∧
    CreateSmallModel.preprocess_contact_name_simple s L
      = CreateSmallModel.preprocess_contact_name_simple (s.take L) L ∧
    CreateTinyModel.preprocess_text_tiny s L
      = CreateTinyModel.preprocess_text_tiny (s.take L) L ∧
    CreateTinyModel.preprocess_contact_name_tiny s L
      = CreateTinyModel.preprocess_contact_name_tiny (s.take L) L :=
  ⟨(clampEncode_take 29999 s L).symm, (clampEncode_take 29999 s L).symm,
   (clampEncode_take 255 s L).symm, (clampEncode_take 255 s L).symm,
   (clampEncode_take 127 s L).symm, (clampEncode_take 127 s L).symm⟩

/-- Witness for C4 at `s = "Hello World"`, `L = 5`. -/
theorem C4_depends_on_truncated_input_witness :
    CreateModel.preprocess_text "Hello World".toList 5
      = CreateModel.preprocess_text ("Hello World".toList.take 5) 5 ∧
    CreateModel.preprocess_contact_name "Hello World".toList 5
      = CreateModel.preprocess_contact_name ("Hello World".toList.take 5) 5 ∧
    CreateSmallModel.preprocess_text_simple "Hello World".toList 5
      = CreateSmallModel.preprocess_text_simple ("Hello World".toList.take 5) 5 ∧
    CreateSmallModel.preprocess_contact_name_simple "Hello World".toList 5
      = CreateSmallModel.preprocess_contact_name_simple ("Hello World".toList.take 5) 5 ∧
    CreateTinyModel.preprocess_text_tiny "Hello World".toList 5
      = CreateTinyModel.preprocess_text_tiny ("Hello World".toList.take 5) 5 ∧
    CreateTinyModel.preprocess_contact_name_tiny "Hello World".toList 5
      = CreateTinyModel.preprocess_contact_name_tiny ("Hello World".toList.take 5) 5 :=
  C4_depends_on_truncated_input "Hello World".toList 5 (by decide)

/-- Claim C5: each encoder is a total function whose output is well-formed for
any input whatsoever: length exactly `max_length` and every element within the
variant's code bound. -/
theorem C5_total_wellformed (s : List Char) (L : Nat) :
    ((CreateModel.preprocess_text s L).length = L ∧
      (CreateModel.preprocess_text s L).all (fun x => decide (x ≤ 29999)) = true) ∧
    ((CreateModel.preprocess_contact_name s L).length = L ∧
      (CreateModel.preprocess_contact_name s L).all (fun x => decide (x ≤ 29999)) = true) ∧
    ((CreateSmallModel.preprocess_text_simple s L).length = L ∧
      (CreateSmallModel.preprocess_text_simple s L).all (fun x => decide (x ≤ 255)) = true) ∧
    ((CreateSmallModel.preprocess_contact_name_simple s L).length = L ∧
      (CreateSmallModel.preprocess_contact_name_simple s L).all
        (fun x => decide (x ≤ 255)) = true) ∧
    ((CreateTinyModel.preprocess_text_tiny s L).length = L ∧
      (CreateTinyModel.preprocess_text_tiny s L).all (fun x => decide (x ≤ 127)) = true) ∧
    ((CreateTinyModel.preprocess_contact_name_tiny s L).length = L ∧
      (CreateTinyModel.preprocess_contact_name_tiny s L).all
        (fun x => decide (x ≤ 127)) = true) := by
  refine ⟨⟨clampEncode_length 29999 s L, ?_⟩, ⟨clampEncode_length 29999 s L, ?_⟩,
    ⟨clampEncode_length 255 s L, ?_⟩, ⟨clampEncode_length 255 s L, ?_⟩,
    ⟨clampEncode_length 127 s L, ?_⟩, ⟨clampEncode_length 127 s L, ?_⟩⟩ <;>
  · rw [List.all_eq_true]
    intro x hx
    simp only [decide_eq_true_eq]
    exact clampEncode_all_le _ s L x hx

/-- A loop that appends one element per iteration yields the initial list
followed by the per-iteration elements, in order. -/
theorem foldl_append_singleton {α β : Type} (f : β → α) (l : List β) (init : List α) :
    l.foldl (fun acc i => acc ++ [f i]) init = init ++ l.map f := by
  induction l generalizing init with
  | nil => simp
  | cons a t ih => simp [ih]

/-- A loop appending to two accumulators at once yields two mapped lists. -/
theorem foldl_pair_append {α β γ : Type} (f : α → β) (k : α → γ) (l : List α)
    (xa : List β) (ya : List γ) :
    l.foldl (fun acc p => (acc.1 ++ [f p], acc.2 ++ [k p])) (xa, ya)
      = (xa ++ l.map f, ya ++ l.map k) := by
  induction l generalizing xa ya with
  | nil => simp
  | cons a t ih => simp [ih]

/-- `np.random.choice` always draws an element of a non-empty pool. -/
theorem np_choice_mem (pool : List (List Char)) (r : Nat) (h : pool ≠ []) :
    np_choice pool r ∈ pool := by
  unfold np_choice
  have hl : 0 < pool.length := List.length_pos.mpr h
  have hm : r % pool.length < pool.length := Nat.mod_lt _ hl
  rw [List.getD_eq_getElem?_getD, List.getElem?_eq_getElem hm]
  exact List.getElem_mem hm

theorem generate_training_data_eq (g : Nat → Nat) :
    CreateModel.generate_training_data g
      = CreateModel.training_examples
        ++ (List.range 50).map (CreateModel.synth_example g) :=
  foldl_append_singleton _ _ _

theorem generate_simple_training_data_eq (g : Nat → Nat) :
    CreateSmallModel.generate_simple_training_data g
      = CreateSmallModel.training_examples
        ++ (List.range 20).map (CreateSmallModel.synth_example g) :=
  foldl_append_singleton _ _ _

theorem generate_tiny_training_data_eq (g : Nat → Nat) :
    CreateTinyModel.generate_tiny_training_data g
      = CreateTinyModel.training_examples
        ++ (List.range 10).map (CreateTinyModel.synth_example g) :=
  foldl_append_singleton _ _ _

end Sentinel

namespace Sentinel

/-- Claim C7: for every random source, each variant's generator returns its
fixed hand-authored list (10 / 10 / 5 examples) followed, in order, by exactly
N synthetic examples (N = 50 / 20 / 10); in particular the tiny variant
returns at least 15 examples. -/
theorem C7_generator_structure (g : Nat → Nat) :
    ((CreateModel.generate_training_data g).length = 10 + 50 ∧
     (CreateModel.generate_training_data g).take 10 = CreateModel.training_examples ∧
     (CreateModel.generate_training_data g).drop 10
       = (List.range 50).map (CreateModel.synth_example g) ∧
     CreateModel.training_examples.length = 10) ∧
    ((CreateSmallModel.generate_simple_training_data g).length = 10 + 20 ∧
     (CreateSmallModel.generate_simple_training_data g).take 10
       = CreateSmallModel.training_examples ∧
     (CreateSmallModel.generate_simple_training_data g).drop 10
       = (List.range 20).map (CreateSmallModel.synth_example g) ∧
     CreateSmallModel.training_examples.length = 10) ∧
    ((CreateTinyModel.generate_tiny_training_data g).length = 5 + 10 ∧
     (CreateTinyModel.generate_tiny_training_data g).take 5
       = CreateTinyModel.training_examples ∧
     (CreateTinyModel.generate_tiny_training_data g).drop 5
       = (List.range 10).map (CreateTinyModel.synth_example g) ∧
     CreateTinyModel.training_examples.length = 5 ∧
     15 ≤ (CreateTinyModel.generate_tiny_training_data g).length) := by
  rw [generate_training_data_eq, generate_simple_training_data_eq,
    generate_tiny_training_data_eq]
  refine ⟨⟨?_, ?_, ?_, rfl⟩, ⟨?_, ?_, ?_, rfl⟩, ⟨?_, ?_, ?_, rfl, ?_⟩⟩
  · simp [CreateModel.training_examples]
  · rw [show (10 : Nat) = CreateModel.training_examples.length from rfl, List.take_left]
  · rw [show (10 : Nat) = CreateModel.training_examples.length from rfl, List.drop_left]
  · simp [CreateSmallModel.training_examples]
  · rw [show (10 : Nat) = CreateSmallModel.training_examples.length from rfl, List.take_left]
  · rw [show (10 : Nat) = CreateSmallModel.training_examples.length from rfl, List.drop_left]
  · simp [CreateTinyModel.training_examples]
  · rw [show (5 : Nat) = CreateTinyModel.training_examples.length from rfl, List.take_left]
  · rw [show (5 : Nat) = CreateTinyModel.training_examples.length from rfl, List.drop_left]
  · simp [CreateTinyModel.training_examples]

/-- A label built from a space-free non-empty first name and surname is
non-empty, contains exactly one space, and neither starts nor ends with it. -/
theorem two_token_label (fn sn : List Char)
    (hfn : fn ≠ []) (hsn : sn ≠ []) (hf : List.count ' ' fn = 0)
    (hs : List.count ' ' sn = 0)
    (hfh : fn.head? ≠ some ' ') (hsl : sn.getLast? ≠ some ' ') :
    fn ++ ' ' :: sn ≠ [] ∧ List.count ' ' (fn ++ ' ' :: sn) = 1 ∧
    (fn ++ ' ' :: sn).head? ≠ some ' ' ∧ (fn ++ ' ' :: sn).getLast? ≠ some ' ' := by
  refine ⟨by simp, ?_, ?_, ?_⟩
  · rw [List.count_append, List.count_cons, hf, hs]
    simp
  · cases fn with
    | nil => exact absurd rfl hfn
    | cons a t => simpa using hfh
  · rw [List.getLast?_append]
    cases sn with
    | nil => exact absurd rfl hsn
    | cons b t =>
      rw [List.getLast?_cons_cons]
      cases hgl : (b :: t).getLast? with
      | none => simp [List.getLast?_eq_none_iff] at hgl
      | some x =>
        rw [hgl] at hsl
        simpa [Option.or] using hsl

/-- Claim C8: every synthetic example's label is a first name from the
variant's fixed pool, a single space, and a surname from the variant's fixed
pool (pools 10 × 10 for full/small, 5 × 5 for tiny), and every example of the
tiny variant has a non-empty label containing exactly one space, with
non-empty tokens on both sides of it. -/
theorem C8_synth_label_from_pools (g : Nat → Nat) (ex : List Char × List Char) :
    (ex ∈ (CreateModel.generate_training_data g).drop 10 →
      ∃ fn ∈ CreateModel.names, ∃ sn ∈ CreateModel.surnames, ex.2 = fn ++ ' ' :: sn) ∧
    (ex ∈ (CreateSmallModel.generate_simple_training_data g).drop 10 →
      ∃ fn ∈ CreateSmallModel.names, ∃ sn ∈ CreateSmallModel.surnames,
        ex.2 = fn ++ ' ' :: sn) ∧
    (ex ∈ (CreateTinyModel.generate_tiny_training_data g).drop 5 →
      ∃ fn ∈ CreateTinyModel.names, ∃ sn ∈ CreateTinyModel.surnames,
        ex.2 = fn ++ ' ' :: sn) ∧
    (ex ∈ CreateTinyModel.generate_tiny_training_data g →
      ex.2 ≠ [] ∧ List.count ' ' ex.2 = 1 ∧
      ex.2.head? ≠ some ' ' ∧ ex.2.getLast? ≠ some ' ') ∧
    CreateModel.names.length = 10 ∧ CreateModel.surnames.length = 10 ∧
    CreateSmallModel.names.length = 10 ∧ CreateSmallModel.surnames.length = 10 ∧
    CreateTinyModel.names.length = 5 ∧ CreateTinyModel.surnames.length = 5 := by
  refine ⟨?_, ?_, ?_, ?_, rfl, rfl, rfl, rfl, rfl, rfl⟩
  · intro h
    rw [generate_training_data_eq,
      show (10 : Nat) = CreateModel.training_examples.length from rfl, List.drop_left] at h
    rcases List.mem_map.mp h with ⟨i, _, rfl⟩
    exact ⟨_, np_choice_mem _ _ (by decide), _, np_choice_mem _ _ (by decide), rfl⟩
  · intro h
    rw [generate_simple_training_data_eq,
      show (10 : Nat) = CreateSmallModel.training_examples.length from rfl,
      List.drop_left] at h
    rcases List.mem_map.mp h with ⟨i, _, rfl⟩
    exact ⟨_, np_choice_mem _ _ (by decide), _, np_choice_mem _ _ (by decide), rfl⟩
  · intro h
    rw [generate_tiny_training_data_eq,
      show (5 : Nat) = CreateTinyModel.training_examples.length from rfl,
      List.drop_left] at h
    rcases List.mem_map.mp h with ⟨i, _, rfl⟩
    exact ⟨_, np_choice_mem _ _ (by decide), _, np_choice_mem _ _ (by decide), rfl⟩
  · intro h
    rw [generate_tiny_training_data_eq] at h
    rcases List.mem_append.mp h with h | h
    · exact (by decide :
        ∀ p ∈ CreateTinyModel.training_examples,
          p.2 ≠ [] ∧ List.count ' ' p.2 = 1 ∧
          p.2.head? ≠ some ' ' ∧ p.2.getLast? ≠ some ' ') ex h
    · rcases List.mem_map.mp h with ⟨i, _, rfl⟩
      have hfn := np_choice_mem CreateTinyModel.names (g (2 * i)) (by decide)
      have hsn := np_choice_mem CreateTinyModel.surnames (g (2 * i + 1)) (by decide)
      have hN : ∀ fn ∈ CreateTinyModel.names,
          fn ≠ [] ∧ List.count ' ' fn = 0 ∧ fn.head? ≠ some ' ' := by decide
      have hS : ∀ sn ∈ CreateTinyModel.surnames,
          sn ≠ [] ∧ List.count ' ' sn = 0 ∧ sn.getLast? ≠ some ' ' := by decide
      obtain ⟨h1, h2, h3⟩ := hN _ hfn
      obtain ⟨h4, h5, h6⟩ := hS _ hsn
      exact two_token_label _ _ h1 h4 h2 h5 h3 h6

/-- Witness for C8: with the constant-zero random source, the first synthetic
example of each variant has label "Alex Anderson", drawn from the pools. -/
theorem C8_synth_label_from_pools_witness :
    (∃ fn ∈ CreateModel.names, ∃ sn ∈ CreateModel.surnames,
      (CreateModel.synth_example (fun _ => 0) 0).2 = fn ++ ' ' :: sn) ∧
    (∃ fn ∈ CreateSmallModel.names, ∃ sn ∈ CreateSmallModel.surnames,
      (CreateSmallModel.synth_example (fun _ => 0) 0).2 = fn ++ ' ' :: sn) ∧
    (∃ fn ∈ CreateTinyModel.names, ∃ sn ∈ CreateTinyModel.surnames,
      (CreateTinyModel.synth_example (fun _ => 0) 0).2 = fn ++ ' ' :: sn) ∧
    ((CreateTinyModel.synth_example (fun _ => 0) 0).2 ≠ [] ∧
      List.count ' ' (CreateTinyModel.synth_example (fun _ => 0) 0).2 = 1 ∧
      (CreateTinyModel.synth_example (fun _ => 0) 0).2.head? ≠ some ' ' ∧
      (CreateTinyModel.synth_example (fun _ => 0) 0).2.getLast? ≠ some ' ') := by
  refine ⟨(C8_synth_label_from_pools (fun _ => 0)
      (CreateModel.synth_example (fun _ => 0) 0)).1 (by decide),
    (C8_synth_label_from_pools (fun _ => 0)
      (CreateSmallModel.synth_example (fun _ => 0) 0)).2.1 (by decide),
    (C8_synth_label_from_pools (fun _ => 0)
      (CreateTinyModel.synth_example (fun _ => 0) 0)).2.2.1 (by decide),
    (C8_synth_label_from_pools (fun _ => 0)
      (CreateTinyModel.synth_example (fun _ => 0) 0)).2.2.2.1 (by decide)⟩

/-- Claim C10: for every random source, every example (fixed or synthetic) of
any of the three generators has input text beginning with its label followed
immediately by a newline. -/
theorem C10_label_first_line (g : Nat → Nat) (ex : List Char × List Char)
    (h : ex ∈ CreateModel.generate_training_data g ∨
         ex ∈ CreateSmallModel.generate_simple_training_data g ∨
         ex ∈ CreateTinyModel.generate_tiny_training_data g) :
    ex.2 ++ ['\n'] <+: ex.1 := by
  rcases h with h | h | h
  · rw [generate_training_data_eq] at h
    rcases List.mem_append.mp h with h | h
    · exact (by decide :
        ∀ p ∈ CreateModel.training_examples, p.2 ++ ['\n'] <+: p.1) ex h
    · rcases List.mem_map.mp h with ⟨i, _, rfl⟩
      exact ⟨np_choice CreateModel.status_options (g (5 * i + 2)) ++
          '\n' :: "Last seen today at ".toList ++
          (Nat.repr (np_randint 1 12 (g (5 * i + 3)))).toList ++
          ':' :: format02d (np_randint 10 60 (g (5 * i + 4))) ++ " PM".toList,
        by simp [CreateModel.synth_example]⟩
  · rw [generate_simple_training_data_eq] at h
    rcases List.mem_append.mp h with h | h
    · exact (by decide :
        ∀ p ∈ CreateSmallModel.training_examples, p.2 ++ ['\n'] <+: p.1) ex h
    · rcases List.mem_map.mp h with ⟨i, _, rfl⟩
      exact ⟨np_choice CreateSmallModel.status_options (g (3 * i + 2)) ++
          '\n' :: "Last seen today".toList,
        by simp [CreateSmallModel.synth_example]⟩
  · rw [generate_tiny_training_data_eq] at h
    rcases List.mem_append.mp h with h | h
    · exact (by decide :
        ∀ p ∈ CreateTinyModel.training_examples, p.2 ++ ['\n'] <+: p.1) ex h
    · rcases List.mem_map.mp h with ⟨i, _, rfl⟩
      exact ⟨"Online".toList, by simp [CreateTinyModel.synth_example]⟩

/-- Witness for C10: the first fixed tiny example. -/
theorem C10_label_first_line_witness :
    ("John Smith".toList ++ ['\n'] : List Char) <+: "John Smith\nOnline".toList :=
  C10_label_first_line (fun _ => 0)
    ("John Smith\nOnline".toList, "John Smith".toList)
    (Or.inr (Or.inr (by decide)))

theorem create_training_data_full_eq (g : Nat → Nat) :
    CreateModel.create_training_data g
      = ((CreateModel.generate_training_data g).map
           (fun p => CreateModel.preprocess_text p.1),
         (CreateModel.generate_training_data g).map
           (fun p => CreateModel.preprocess_contact_name p.2)) := by
  unfold CreateModel.create_training_data
  rw [foldl_pair_append]
  simp

theorem create_training_data_small_eq (g : Nat → Nat) :
    CreateSmallModel.create_training_data g
      = ((CreateSmallModel.generate_simple_training_data g).map
           (fun p => CreateSmallModel.preprocess_text_simple p.1),
         (CreateSmallModel.generate_simple_training_data g).map
           (fun p => CreateSmallModel.preprocess_contact_name_simple p.2)) := by
  unfold CreateSmallModel.create_training_data
  rw [foldl_pair_append]
  simp

theorem create_training_data_tiny_eq (g : Nat → Nat) :
    CreateTinyModel.create_training_data g
      = ((CreateTinyModel.generate_tiny_training_data g).map
           (fun p => CreateTinyModel.preprocess_text_tiny p.1),
         (CreateTinyModel.generate_tiny_training_data g).map
           (fun p => CreateTinyModel.preprocess_contact_name_tiny p.2)) := by
  unfold CreateTinyModel.create_training_data
  rw [foldl_pair_append]
  simp

theorem create_training_data_full_fst (g : Nat → Nat) :
    (CreateModel.create_training_data g).1
      = (CreateModel.generate_training_data g).map
          (fun p => CreateModel.preprocess_text p.1) := by
  rw [create_training_data_full_eq]

theorem create_training_data_full_snd (g : Nat → Nat) :
    (CreateModel.create_training_data g).2
      = (CreateModel.generate_training_data g).map
          (fun p => CreateModel.preprocess_contact_name p.2) := by
  rw [create_training_data_full_eq]

theorem create_training_data_small_fst (g : Nat → Nat) :
    (CreateSmallModel.create_training_data g).1
      = (CreateSmallModel.generate_simple_training_data g).map
          (fun p => CreateSmallModel.preprocess_text_simple p.1) := by
  rw [create_training_data_small_eq]

theorem create_training_data_small_snd (g : Nat → Nat) :
    (CreateSmallModel.create_training_data g).2
      = (CreateSmallModel.generate_simple_training_data g).map
          (fun p => CreateSmallModel.preprocess_contact_name_simple p.2) := by
  rw [create_training_data_small_eq]

theorem create_training_data_tiny_fst (g : Nat → Nat) :
    (CreateTinyModel.create_training_data g).1
      = (CreateTinyModel.generate_tiny_training_data g).map
          (fun p => CreateTinyModel.preprocess_text_tiny p.1) := by
  rw [create_training_data_tiny_eq]

theorem create_training_data_tiny_snd (g : Nat → Nat) :
    (CreateTinyModel.create_training_data g).2
      = (CreateTinyModel.generate_tiny_training_data g).map
          (fun p => CreateTinyModel.preprocess_contact_name_tiny p.2) := by
  rw [create_training_data_tiny_eq]

/-- The `i`-th row of a mapped list has the mapped length inside the range and
defaults to length 0 outside it. -/
theorem row_length_getD {α : Type} (l : List α) (f : α → List Nat) (i n : Nat)
    (hf : ∀ p, (f p).length = n) :
    (((l.map f)[i]?).getD []).length = if i < l.length then n else 0 := by
  rw [List.getElem?_map]
  cases h : l[i]? with
  | none =>
    have hge : l.length ≤ i := List.getElem?_eq_none_iff.mp h
    rw [if_neg (by omega)]
    simp
  | some p =>
    have hlt : i < l.length := by
      by_contra hc
      rw [List.getElem?_eq_none (by omega)] at h
      exact Option.noConfusion h
    rw [if_pos hlt]
    simp [hf]

end Sentinel

namespace Sentinel

set_option maxHeartbeats 1600000 in
/-- Claim C9: for every variant, the dataset builder returns `X` and `y` with
first dimension equal to the number of generated examples, second dimension
exactly 200 and 50, and for every index the `i`-th row of `X` (resp. `y`) is
the encoding of example `i`'s input text (resp. label); nothing is filtered,
reordered, or deduplicated. -/
theorem C9_dataset_builder_aligned (g : Nat → Nat) (i : Nat) :
    ((CreateModel.create_training_data g).1.length
        = (CreateModel.generate_training_data g).length ∧
     (CreateModel.create_training_data g).2.length
        = (CreateModel.generate_training_data g).length ∧
     (CreateModel.create_training_data g).1[i]?
        = ((CreateModel.generate_training_data g)[i]?).map
            (fun p => CreateModel.preprocess_text p.1) ∧
     (CreateModel.create_training_data g).2[i]?
        = ((CreateModel.generate_training_data g)[i]?).map
            (fun p => CreateModel.preprocess_contact_name p.2) ∧
     (((CreateModel.create_training_data g).1[i]?).getD []).length
        = (if i < (CreateModel.generate_training_data g).length then 200 else 0) ∧
     (((CreateModel.create_training_data g).2[i]?).getD []).length
        = (if i < (CreateModel.generate_training_data g).length then 50 else 0)) ∧
    ((CreateSmallModel.create_training_data g).1.length
        = (CreateSmallModel.generate_simple_training_data g).length ∧
     (CreateSmallModel.create_training_data g).2.length
        = (CreateSmallModel.generate_simple_training_data g).length ∧
     (CreateSmallModel.create_training_data g).1[i]?
        = ((CreateSmallModel.generate_simple_training_data g)[i]?).map
            (fun p => CreateSmallModel.preprocess_text_simple p.1) ∧
     (CreateSmallModel.create_training_data g).2[i]?
        = ((CreateSmallModel.generate_simple_training_data g)[i]?).map
            (fun p => CreateSmallModel.preprocess_contact_name_simple p.2) ∧
     (((CreateSmallModel.create_training_data g).1[i]?).getD []).length
        = (if i < (CreateSmallModel.generate_simple_training_data g).length
            then 200 else 0) ∧
     (((CreateSmallModel.create_training_data g).2[i]?).getD []).length
        = (if i < (CreateSmallModel.generate_simple_training_data g).length
            then 50 else 0)) ∧
    ((CreateTinyModel.create_training_data g).1.length
        = (CreateTinyModel.generate_tiny_training_data g).length ∧
     (CreateTinyModel.create_training_data g).2.length
        = (CreateTinyModel.generate_tiny_training_data g).length ∧
     (CreateTinyModel.create_training_data g).1[i]?
        = ((CreateTinyModel.generate_tiny_training_data g)[i]?).map
            (fun p => CreateTinyModel.preprocess_text_tiny p.1) ∧
     (CreateTinyModel.create_training_data g).2[i]?
        = ((CreateTinyModel.generate_tiny_training_data g)[i]?).map
            (fun p => CreateTinyModel.preprocess_contact_name_tiny p.2) ∧
     (((CreateTinyModel.create_training_data g).1[i]?).getD []).length
        = (if i < (CreateTinyModel.generate_tiny_training_data g).length
            then 200 else 0) ∧
     (((CreateTinyModel.create_training_data g).2[i]?).getD []).length
        = (if i < (CreateTinyModel.generate_tiny_training_data g).length
            then 50 else 0)) := by
  rw [create_training_data_full_fst, create_training_data_full_snd,
    create_training_data_small_fst, create_training_data_small_snd,
    create_training_data_tiny_fst, create_training_data_tiny_snd]
  refine ⟨⟨?_, ?_, ?_, ?_, ?_, ?_⟩, ⟨?_, ?_, ?_, ?_, ?_, ?_⟩, ⟨?_, ?_, ?_, ?_, ?_, ?_⟩⟩
  · rw [List.length_map]
  · rw [List.length_map]
  · rw [List.getElem?_map]
  · rw [List.getElem?_map]
  · exact row_length_getD (CreateModel.generate_training_data g) _ i 200
      (fun p => clampEncode_length 29999 p.1 200)
  · exact row_length_getD (CreateModel.generate_training_data g) _ i 50
      (fun p => clampEncode_length 29999 p.2 50)
  · rw [List.length_map]
  · rw [List.length_map]
  · rw [List.getElem?_map]
  · rw [List.getElem?_map]
  · exact row_length_getD (CreateSmallModel.generate_simple_training_data g) _ i 200
      (fun p => clampEncode_length 255 p.1 200)
  · exact row_length_getD (CreateSmallModel.generate_simple_training_data g) _ i 50
      (fun p => clampEncode_length 255 p.2 50)
  · rw [List.length_map]
  · rw [List.length_map]
  · rw [List.getElem?_map]
  · rw [List.getElem?_map]
  · exact row_length_getD (CreateTinyModel.generate_tiny_training_data g) _ i 200
      (fun p => clampEncode_length 127 p.1 200)
  · exact row_length_getD (CreateTinyModel.generate_tiny_training_data g) _ i 50
      (fun p => clampEncode_length 127 p.2 50)

end Sentinel

namespace Sentinel

theorem relu_zero : relu 0 = 0 := by
  simp [relu]

/-- A zero weight row contributes a zero dot product, whatever the input. -/
theorem dotProduct_zero (x : List ℝ) (n : Nat) :
    dotProduct (List.replicate n 0) x = 0 := by
  induction x generalizing n with
  | nil => cases n <;> simp [dotProduct]
  | cons a t ih =>
    cases n with
    | zero => simp [dotProduct]
    | succ m =>
      rw [List.replicate_succ]
      unfold dotProduct
      rw [List.zipWith_cons_cons, List.sum_cons, zero_mul, zero_add]
      exact ih m

/-- A dense layer with all-zero weights and biases outputs the zero vector. -/
theorem dense_layer_zero (m n : Nat) (x : List ℝ) :
    dense_layer (List.replicate m (List.replicate n 0)) (List.replicate m 0) x
      = List.replicate m 0 := by
  induction m with
  | zero => simp [dense_layer]
  | succ k ih =>
    simp only [List.replicate_succ]
    unfold dense_layer
    rw [List.zipWith_cons_cons]
    congr 1
    rw [dotProduct_zero]
    simp

/-- Softmax of a constant-zero vector of length `k` is uniform: every entry is
`1 / k` (over the WHOLE vector, not per reshaped row). -/
theorem softmax_replicate_zero (k : Nat) :
    softmax (List.replicate k (0 : ℝ)) = List.replicate k (1 / (k : ℝ)) := by
  unfold softmax
  simp only [List.map_replicate, Real.exp_zero, List.sum_replicate, nsmul_eq_mul, mul_one]

theorem reshapeRows_getD_zero (cols rows : Nat) (l : List ℝ) :
    (reshapeRows cols (rows + 1) l).getD 0 [] = l.take cols := rfl

end Sentinel

namespace Sentinel

/-- Claim C6 evaluation at a failing input: with all weights and biases zero
(an admissible parameter instance) and the zero input vector, the first row of
the reshaped `(50, 128)` output of the tiny model sums to `1 / 50`, not `1`:
Keras applies the softmax across all `50 * 128` outputs of the final `Dense`
layer jointly, before the reshape, so the rows of the reshaped grid are not
individual probability distributions over the vocabulary. -/
theorem C6_reshaped_row_sum_is_one_fiftieth :
    ((CreateTinyModel.create_tiny_contact_detection_model
        (CreateTinyModel.zeroMatrix 32 200) (CreateTinyModel.zeroVec 32)
        (CreateTinyModel.zeroMatrix 16 32) (CreateTinyModel.zeroVec 16)
        (CreateTinyModel.zeroMatrix (50 * 128) 16) (CreateTinyModel.zeroVec (50 * 128))
        (List.replicate 200 0)).getD 0 []).sum = 1 / 50 ∧
    ((1 : ℝ) / 50) ≠ 1 := by
  constructor
  · show ((reshapeRows CreateTinyModel.VOCAB_SIZE CreateTinyModel.MAX_OUTPUT_LENGTH
        (softmax (dense_layer (List.replicate (50 * 128) (List.replicate 16 0))
          (List.replicate (50 * 128) 0)
          ((dense_layer (List.replicate 16 (List.replicate 32 0)) (List.replicate 16 0)
            ((dense_layer (List.replicate 32 (List.replicate 200 0)) (List.replicate 32 0)
              (List.replicate 200 0)).map relu)).map relu)))).getD 0 []).sum = 1 / 50
    rw [dense_layer_zero 32 200, List.map_replicate, relu_zero,
      dense_layer_zero 16 32, List.map_replicate, relu_zero,
      dense_layer_zero (50 * 128) 16, softmax_replicate_zero]
    show ((reshapeRows 128 (49 + 1)
        (List.replicate (50 * 128) (1 / ((50 * 128 : Nat) : ℝ)))).getD 0 []).sum = 1 / 50
    rw [reshapeRows_getD_zero, List.take_replicate]
    norm_num [List.sum_replicate, nsmul_eq_mul]
  · norm_num

end Sentinel
